import Mathlib

/-!
Verification of the SOF low-latency schedule domain
(`src/include/sof/schedule/ll_schedule_domain.h`) and the IPC3 topology
helper (`src/ipc/ipc3/helper.c`) against their natural-language
specification.  The C code is shallowly embedded: structs become Lean
structures, pointer-mutating functions become state-passing functions,
machine integers become `Nat`/`Int` (the `atomic_t` counters are `Int`,
matching the signed counters, whose values in all verified scenarios
stay far from the wrap boundary), and calls into code outside the two
source files (backend hooks, allocators, registry lookups, pipeline
graph primitives) are either modelled from the specification (their doc
comments start with `Modelled from the spec:`) or passed in as explicit
outcome parameters.
-/

namespace Sof

/-- `EINVAL` errno value; the C code returns `-EINVAL`. -/
def EINVAL : Int := 22

/-- `ENODEV` errno value; the C code returns `-ENODEV`. -/
def ENODEV : Int := 19

/-- `ENOMEM` errno value; the C code returns `-ENOMEM`. -/
def ENOMEM : Int := 12

/-- Result of `ipc_process_on_core`: the operation was redirected to the
entity's owning core (core delegation); the exact positive value is
outside the sample, only "not a local error" matters here. -/
def ON_OTHER_CORE : Int := 1

/-- `UINT64_MAX`, the "no tick set" sentinel stored in `next_tick`. -/
def UINT64_MAX : Nat := 2 ^ 64 - 1

/-- `COMP_STATE_READY` from the component state machine: the idle/ready
state; every other state value counts as active for teardown checks. -/
def COMP_STATE_READY : Nat := 1

/-! ## ScheduleDomain: `struct ll_schedule_domain`

The per-core arrays `registered[CONFIG_CORE_COUNT]` and
`enabled[CONFIG_CORE_COUNT]` are `List Bool` whose length is the core
count.  The backend (`struct ll_schedule_domain_ops`) lives outside the
two source files; where a hook's return value steers the wrapper
(`domain_register` / `domain_unregister`) it is passed in as `hook_ret`;
where only its presence matters (`domain_enable` / `domain_disable`) the
presence is a `Bool` and, following the spec's description of those
hooks as hardware-arming operations, the hook itself does not mutate the
domain bookkeeping; the optional `domain_set` / `domain_clear` hooks are
arbitrary state transformers. -/

structure LLDomain where
  next_tick : Nat
  new_target_tick : Nat
  total_num_tasks : Int
  enabled_cores : Int
  ticks_per_ms : Nat
  type : Int
  clk : Int
  synchronous : Bool
  full_sync : Bool
  registered : List Bool
  enabled : List Bool
deriving Repr, DecidableEq

/-- Embeds `domain_init`.  The C allocates the struct with `rballoc`
(not the zeroing `rzalloc` used elsewhere in the sample): the
allocation's prior contents are *not* cleared, so the fields the
function does not assign — in particular the `registered[]` and
`enabled[]` arrays — keep whatever the allocator returned; the parameter
`mem` is that pre-existing memory.  `clock_ms_to_ticks` is platform code
outside the sample and its result is the `ticks_per_ms` parameter. -/
def domain_init (mem : LLDomain) (ty clk : Int) (synchronous : Bool)
    (ticks_per_ms : Nat) : LLDomain :=
  { mem with
    type := ty
    clk := clk
    synchronous := synchronous
    full_sync := false
    ticks_per_ms := ticks_per_ms
    next_tick := UINT64_MAX
    new_target_tick := UINT64_MAX
    total_num_tasks := 0
    enabled_cores := 0 }

/-- Embeds `domain_set`: delegate to the backend `domain_set` hook when
present, otherwise store `start` as `next_tick`. -/
def domain_set (setHook : Option (LLDomain → Nat → LLDomain))
    (d : LLDomain) (start : Nat) : LLDomain :=
  match setHook with
  | some f => f d start
  | none => { d with next_tick := start }

/-- Embeds `domain_clear`: invoke the backend `domain_clear` hook when
present, then unconditionally reset `next_tick` to `UINT64_MAX`. -/
def domain_clear (clearHook : Option (LLDomain → LLDomain))
    (d : LLDomain) : LLDomain :=
  let d1 :=
    match clearHook with
    | some f => f d
    | none => d
  { d1 with next_tick := UINT64_MAX }

/-- Embeds `domain_register`.  `core` is `cpu_get_id()`; `hook_ret` is
the value returned by the mandatory backend `domain_register` hook.  On
hook success (`ret == 0`) the task count is incremented and the calling
core's `registered` flag set if it was clear. -/
def domain_register (d : LLDomain) (core : Nat) (hook_ret : Int) :
    Int × LLDomain :=
  if hook_ret = 0 then
    let d1 := { d with total_num_tasks := d.total_num_tasks + 1 }
    let d2 :=
      if d1.registered.getD core false = false then
        { d1 with registered := d1.registered.set core true }
      else d1
    (hook_ret, d2)
  else (hook_ret, d)

/-- Embeds `domain_unregister`.  `core` is `cpu_get_id()`; `num_tasks`
is the caller's count of tasks remaining on this core; `hook_ret` is the
value returned by the mandatory backend `domain_unregister` hook (which,
per the spec, must be side-effect-free on the domain bookkeeping when it
fails).  The counter is decremented and the flag cleared *before* the
hook is called; on hook failure (`ret < 0`) the code attempts to restore
the previous state.  Note that the C restore condition tests the
*current* flag (`domain->registered[core]`), not the snapshot
(`registered`). -/
def domain_unregister (d : LLDomain) (core : Nat) (num_tasks : Nat)
    (hook_ret : Int) : LLDomain :=
  let registered := d.registered.getD core false
  let d1 := { d with total_num_tasks := d.total_num_tasks - 1 }
  let d2 :=
    if num_tasks = 0 ∧ registered then
      { d1 with registered := d1.registered.set core false }
    else d1
  if hook_ret < 0 then
    let d3 := { d2 with total_num_tasks := d2.total_num_tasks + 1 }
    if num_tasks = 0 ∧ d3.registered.getD core false then
      { d3 with registered := d3.registered.set core registered }
    else d3
  else d2

/-- Embeds `domain_enable`.  `has_hook` records whether the backend
provides a `domain_enable` hook (the C tests the function pointer); the
returned `Nat` counts how many times the hook was invoked by this call.
Per the spec the hook arms the core's interrupt source and does not
mutate the domain bookkeeping. -/
def domain_enable (d : LLDomain) (core : Nat) (has_hook : Bool) :
    LLDomain × Nat :=
  if d.enabled.getD core false = false ∧ has_hook then
    ({ d with
        enabled := d.enabled.set core true
        enabled_cores := d.enabled_cores + 1 }, 1)
  else (d, 0)

/-- Embeds `domain_disable`, symmetric to `domain_enable`. -/
def domain_disable (d : LLDomain) (core : Nat) (has_hook : Bool) :
    LLDomain × Nat :=
  if d.enabled.getD core false = true ∧ has_hook then
    ({ d with
        enabled := d.enabled.set core false
        enabled_cores := d.enabled_cores - 1 }, 1)
  else (d, 0)

/-- The spec invariant checked by C7: `enabled_cores` equals the number
of `true` entries in `enabled[]`. -/
def enabledCoresInvariant (d : LLDomain) : Prop :=
  d.enabled_cores = (d.enabled.count true : Int)

instance (d : LLDomain) : Decidable (enabledCoresInvariant d) := by
  unfold enabledCoresInvariant; infer_instance

/-- A concrete one-core domain state used in counterexamples: one task
registered on core 0, core 0 registered and enabled. -/
def exDomain : LLDomain :=
  { next_tick := UINT64_MAX
    new_target_tick := UINT64_MAX
    total_num_tasks := 1
    enabled_cores := 1
    ticks_per_ms := 38400
    type := 0
    clk := 0
    synchronous := false
    full_sync := false
    registered := [true]
    enabled := [true] }

/-- A concrete one-core domain state with core 0 not yet enabled. -/
def exDomainOff : LLDomain :=
  { exDomain with enabled := [false], enabled_cores := 0 }

/-- Pre-existing contents of an `rballoc` allocation in which the
`enabled[]` array happens to hold a `true`: `rballoc` does not zero
memory, so `domain_init` inherits these array contents. -/
def dirtyMem : LLDomain :=
  { next_tick := 0
    new_target_tick := 0
    total_num_tasks := 0
    enabled_cores := 0
    ticks_per_ms := 0
    type := 0
    clk := 0
    synchronous := false
    full_sync := false
    registered := [false]
    enabled := [true] }

/-! ## Topology: registry entities (`struct ipc_comp_dev` and payloads)

Registry entries are identified by their process-unique numeric id; the
C's pointers between entities (`buffer->source`, `pipeline->sched_comp`,
component edge lists) become optional ids / id lists.  The registry
itself (`ipc->comp_list`) is the insertion-ordered list of entries. -/

/-- The fields of `struct comp_dev` used by the helper: processing
state, pipeline id, the cross-core `is_shared` flag, and the two buffer
edge lists (`bsource_list` / `bsink_list`, holding buffer ids). -/
structure CompDev where
  state : Nat
  pipe_id : Nat
  is_shared : Bool
  bsource_list : List Nat
  bsink_list : List Nat
deriving Repr, DecidableEq

/-- The fields of `struct comp_buffer` used by the helper. `source` and
`sink` are the ids of the connected component entries (the C stores
`struct comp_dev` pointers). -/
structure CompBuffer where
  id : Nat
  pipeline_id : Nat
  core : Nat
  inter_core : Bool
  source : Option Nat
  sink : Option Nat
  underrun_permitted : Bool
  overrun_permitted : Bool
deriving Repr, DecidableEq

/-- The fields of `struct pipeline` used by the helper.  The three
references at the bottom are the optional component ids bound by
`ipc_pipeline_complete`. -/
structure Pipeline where
  pipeline_id : Nat
  priority : Nat
  comp_id : Nat
  sched_id : Nat
  core : Nat
  period : Nat
  period_mips : Nat
  frames_per_sched : Nat
  time_domain : Nat
  xrun_limit_usecs : Nat
  sched_comp : Option Nat
  source_comp : Option Nat
  sink_comp : Option Nat
deriving Repr, DecidableEq

/-- The tagged union inside `struct ipc_comp_dev` (`cd` / `cb` /
`pipeline`), together with the `type` discriminant. -/
inductive IcdPayload
  | comp (cd : CompDev)
  | buf (cb : CompBuffer)
  | pipe (p : Pipeline)
deriving Repr, DecidableEq

/-- `struct ipc_comp_dev`: a registry entry. -/
structure IpcCompDev where
  id : Nat
  core : Nat
  payload : IcdPayload
deriving Repr, DecidableEq

/-- `ipc->comp_list`, the insertion-ordered registry. -/
abbrev Registry := List IpcCompDev

/-- `icd->type == COMP_TYPE_COMPONENT` as a `Bool`. -/
def isCompEntry (e : IpcCompDev) : Bool :=
  match e.payload with
  | .comp _ => true
  | _ => false

/-- `icd->type == COMP_TYPE_BUFFER` as a `Bool`. -/
def isBufEntry (e : IpcCompDev) : Bool :=
  match e.payload with
  | .buf _ => true
  | _ => false

/-- `icd->type == COMP_TYPE_PIPELINE` as a `Bool`. -/
def isPipeEntry (e : IpcCompDev) : Bool :=
  match e.payload with
  | .pipe _ => true
  | _ => false

/-- Modelled from the spec: `ipc_get_comp_by_id` (ipc-helper.c, outside
the sample) — the first registry entry with the given id; entries are
looked up by id. -/
def ipc_get_comp_by_id (r : Registry) (id : Nat) : Option IpcCompDev :=
  r.find? (fun e => e.id == id)

/-- Modelled from the spec: `ipc_get_comp_by_ppl_id` restricted to
`COMP_TYPE_PIPELINE`, the only instantiation in the sample — the first
pipeline entry with the given pipeline id. -/
def ipc_get_pipe_by_ppl_id (r : Registry) (ppl_id : Nat) :
    Option IpcCompDev :=
  r.find? (fun e =>
    match e.payload with
    | .pipe p => p.pipeline_id == ppl_id
    | _ => false)

/-- Pipeline id of the buffer registered under `bid`, when `bid` names a
buffer entry. -/
def bufferPplId (r : Registry) (bid : Nat) : Option Nat :=
  match ipc_get_comp_by_id r bid with
  | some e =>
    match e.payload with
    | .buf cb => some cb.pipeline_id
    | _ => none
  | none => none

/-- Modelled from the spec: `ipc_get_ppl_src_comp` (outside the sample)
— the pipeline's source-side endpoint: a component entry of the pipeline
at the extremity of the buffer chain, i.e. none of whose incoming
buffers belongs to this pipeline. -/
def ipc_get_ppl_src_comp (r : Registry) (ppl_id : Nat) :
    Option IpcCompDev :=
  r.find? (fun e =>
    match e.payload with
    | .comp cd =>
      cd.pipe_id == ppl_id &&
        cd.bsource_list.all (fun bid => !(bufferPplId r bid == some ppl_id))
    | _ => false)

/-- Modelled from the spec: `ipc_get_ppl_sink_comp` (outside the sample)
— the pipeline's sink-side endpoint, symmetric to the source side. -/
def ipc_get_ppl_sink_comp (r : Registry) (ppl_id : Nat) :
    Option IpcCompDev :=
  r.find? (fun e =>
    match e.payload with
    | .comp cd =>
      cd.pipe_id == ppl_id &&
        cd.bsink_list.all (fun bid => !(bufferPplId r bid == some ppl_id))
    | _ => false)

/-- In-place mutation through an entry pointer: rewrite the payload of
the entries carrying the given id (ids are registry-unique, so this is
the one pointed-to object). -/
def updateEntry (r : Registry) (id : Nat) (f : IcdPayload → IcdPayload) :
    Registry :=
  r.map (fun e => if e.id = id then { e with payload := f e.payload } else e)

/-- `list_item_del` on the registry entry with the given id. -/
def removeEntryById (r : Registry) (id : Nat) : Registry :=
  r.eraseP (fun e => e.id == id)

/-- The two connection directions used by the helper
(`PPL_CONN_DIR_COMP_TO_BUFFER` / `PPL_CONN_DIR_BUFFER_TO_COMP`). -/
inductive ConnDir
  | comp_to_buffer
  | buffer_to_comp
deriving Repr, DecidableEq

/-- Modelled from the spec: `pipeline_connect` (outside the sample)
establishes the edge — the component becomes the buffer's source
(component→buffer) or sink (buffer→component), and the buffer is
appended to the component's corresponding edge list. -/
def pipeline_connect (r : Registry) (compId bufId : Nat) (dir : ConnDir) :
    Registry :=
  let r1 := updateEntry r bufId (fun pl =>
    match pl with
    | .buf cb =>
      .buf (match dir with
        | .comp_to_buffer => { cb with source := some compId }
        | .buffer_to_comp => { cb with sink := some compId })
    | _ => pl)
  updateEntry r1 compId (fun pl =>
    match pl with
    | .comp cd =>
      .comp (match dir with
        | .comp_to_buffer => { cd with bsink_list := cd.bsink_list ++ [bufId] }
        | .buffer_to_comp => { cd with bsource_list := cd.bsource_list ++ [bufId] })
    | _ => pl)

/-- Modelled from the spec: `pipeline_disconnect` (outside the sample)
removes the edge established by `pipeline_connect`. -/
def pipeline_disconnect (r : Registry) (compId bufId : Nat)
    (dir : ConnDir) : Registry :=
  let r1 := updateEntry r bufId (fun pl =>
    match pl with
    | .buf cb =>
      .buf (match dir with
        | .comp_to_buffer => { cb with source := none }
        | .buffer_to_comp => { cb with sink := none })
    | _ => pl)
  updateEntry r1 compId (fun pl =>
    match pl with
    | .comp cd =>
      .comp (match dir with
        | .comp_to_buffer => { cd with bsink_list := cd.bsink_list.erase bufId }
        | .buffer_to_comp => { cd with bsource_list := cd.bsource_list.erase bufId })
    | _ => pl)

/-- `buffer->cb->inter_core = true` through the entry with id `bid`. -/
def setBufferInterCore (r : Registry) (bid : Nat) : Registry :=
  updateEntry r bid (fun pl =>
    match pl with
    | .buf cb => .buf { cb with inter_core := true }
    | _ => pl)

/-- Modelled from the spec: `comp_make_shared` (outside the sample)
promotes the component to its cross-core-safe variant; in the id-based
model the promoted component keeps its identity and gains
`is_shared = true`.  Success/failure of the promotion's allocation is
the caller's `shared_ok` parameter. -/
def setCompShared (r : Registry) (cid : Nat) : Registry :=
  updateEntry r cid (fun pl =>
    match pl with
    | .comp cd => .comp { cd with is_shared := true }
    | _ => pl)

/-- `comp->cd->is_shared` read through the entry pointer. -/
def compEntryShared (e : IpcCompDev) : Bool :=
  match e.payload with
  | .comp cd => cd.is_shared
  | _ => false

/-- Observation: the `inter_core` flag of the buffer registered under
`id`. -/
def bufInterCoreOf (r : Registry) (id : Nat) : Option Bool :=
  match ipc_get_comp_by_id r id with
  | some e =>
    match e.payload with
    | .buf cb => some cb.inter_core
    | _ => none
  | none => none

/-- Observation: the `is_shared` flag of the component registered under
`id`. -/
def compSharedOf (r : Registry) (id : Nat) : Option Bool :=
  match ipc_get_comp_by_id r id with
  | some e =>
    match e.payload with
    | .comp cd => some cd.is_shared
    | _ => none
  | none => none

/-- Observation: the `bsink_list` of the component registered under
`id`. -/
def compBsinkListOf (r : Registry) (id : Nat) : Option (List Nat) :=
  match ipc_get_comp_by_id r id with
  | some e =>
    match e.payload with
    | .comp cd => some cd.bsink_list
    | _ => none
  | none => none

/-- Observation: the `(sched_comp, source_comp, sink_comp)` references
of the pipeline registered under `id`. -/
def pipeRefsOf (r : Registry) (id : Nat) :
    Option (Option Nat × Option Nat × Option Nat) :=
  match ipc_get_comp_by_id r id with
  | some e =>
    match e.payload with
    | .pipe p => some (p.sched_comp, p.source_comp, p.sink_comp)
    | _ => none
  | none => none

/-- Observation: the `(source_comp, sink_comp)` references only. -/
def pipeSourceSinkOf (r : Registry) (id : Nat) :
    Option (Option Nat × Option Nat) :=
  match ipc_get_comp_by_id r id with
  | some e =>
    match e.payload with
    | .pipe p => some (p.source_comp, p.sink_comp)
    | _ => none
  | none => none

/-- `p->sched_comp = icd->cd` through the pipeline entry with id
`pid`. -/
def setSchedComp (r : Registry) (pid : Nat) (schedId : Nat) : Registry :=
  updateEntry r pid (fun pl =>
    match pl with
    | .pipe p => .pipe { p with sched_comp := some schedId }
    | _ => pl)

/-! ## Topology: `helper.c` operations -/

/-- Embeds `ipc_comp_to_buffer_connect`.  `caller` is the executing
core (`cpu_is_me`); `shared_ok` is the outcome of `comp_make_shared`'s
allocation; `comp` and `buffer` are the two entries resolved by
`ipc_comp_connect` (the C receives the pointers).  Note that on a failed
promotion the function returns `-ENOMEM` with the buffer's `inter_core`
flag already set; the C additionally leaves the entry's `cd` pointer
NULL, which no verified scenario observes.  `pipeline_connect` reports
success, and the cache maintenance around the shared buffer has no
counterpart in this single-state model. -/
def ipc_comp_to_buffer_connect (r : Registry) (caller : Nat)
    (shared_ok : Bool) (comp buffer : IpcCompDev) : Int × Registry :=
  if caller ≠ comp.core then (ON_OTHER_CORE, r)
  else if buffer.core ≠ comp.core then
    let r1 := setBufferInterCore r buffer.id
    if compEntryShared comp then
      (0, pipeline_connect r1 comp.id buffer.id .comp_to_buffer)
    else if shared_ok then
      (0, pipeline_connect (setCompShared r1 comp.id) comp.id buffer.id
        .comp_to_buffer)
    else (-ENOMEM, r1)
  else (0, pipeline_connect r comp.id buffer.id .comp_to_buffer)

/-- Embeds `ipc_buffer_to_comp_connect`, the mirror of
`ipc_comp_to_buffer_connect` for a buffer→component edge. -/
def ipc_buffer_to_comp_connect (r : Registry) (caller : Nat)
    (shared_ok : Bool) (buffer comp : IpcCompDev) : Int × Registry :=
  if caller ≠ comp.core then (ON_OTHER_CORE, r)
  else if buffer.core ≠ comp.core then
    let r1 := setBufferInterCore r buffer.id
    if compEntryShared comp then
      (0, pipeline_connect r1 comp.id buffer.id .buffer_to_comp)
    else if shared_ok then
      (0, pipeline_connect (setCompShared r1 comp.id) comp.id buffer.id
        .buffer_to_comp)
    else (-ENOMEM, r1)
  else (0, pipeline_connect r comp.id buffer.id .buffer_to_comp)

/-- Embeds `ipc_comp_connect`: resolve the two ids and dispatch on the
(source type, sink type) pairing; only buffer→component and
component→buffer are valid. -/
def ipc_comp_connect (r : Registry) (caller : Nat) (shared_ok : Bool)
    (source_id sink_id : Nat) : Int × Registry :=
  match ipc_get_comp_by_id r source_id with
  | none => (-EINVAL, r)
  | some icd_source =>
    match ipc_get_comp_by_id r sink_id with
    | none => (-EINVAL, r)
    | some icd_sink =>
      if isBufEntry icd_source && isCompEntry icd_sink then
        ipc_buffer_to_comp_connect r caller shared_ok icd_source icd_sink
      else if isCompEntry icd_source && isBufEntry icd_sink then
        ipc_comp_to_buffer_connect r caller shared_ok icd_source icd_sink
      else (-EINVAL, r)

/-- Embeds `ipc_buffer_free`.  `caller` is the executing core.  The scan
over `ipc->comp_list` marks a side active when some component entry is
the buffer's source/sink and its state is not `COMP_STATE_READY`; both
sides active is a hard failure, otherwise each active side is
disconnected and the buffer freed and unlisted.  (Calling this on a
non-buffer id is a type confusion on the C union, never reached in the
verified scenarios; it is modelled as `-ENODEV`.) -/
def ipc_buffer_free (r : Registry) (caller : Nat) (buffer_id : Nat) :
    Int × Registry :=
  match ipc_get_comp_by_id r buffer_id with
  | none => (-ENODEV, r)
  | some ibd =>
    match ibd.payload with
    | .buf cb =>
      if caller ≠ ibd.core then (ON_OTHER_CORE, r)
      else
        let sink_active := r.any (fun icd =>
          match icd.payload with
          | .comp cd => cb.sink == some icd.id && cd.state != COMP_STATE_READY
          | _ => false)
        let source_active := r.any (fun icd =>
          match icd.payload with
          | .comp cd => cb.source == some icd.id && cd.state != COMP_STATE_READY
          | _ => false)
        if sink_active && source_active then (-EINVAL, r)
        else
          let r1 :=
            if sink_active then
              match cb.sink with
              | some sid => pipeline_disconnect r sid buffer_id .buffer_to_comp
              | none => r
            else r
          let r2 :=
            if source_active then
              match cb.source with
              | some sid => pipeline_disconnect r1 sid buffer_id .comp_to_buffer
              | none => r1
            else r1
          (0, removeEntryById r2 buffer_id)
    | _ => (-ENODEV, r)

/-- Embeds `ipc_pipeline_complete`.  After the pipeline lookup, the core
check and the three scheduling-component checks, the C binds
`p->sched_comp = icd->cd` and only then resolves the source and sink
endpoints; `pipeline_complete` (outside the sample) binds the two
endpoint references and reports success.  (A non-pipeline id is a type
confusion on the C union, never reached in the verified scenarios;
modelled as `-EINVAL`.) -/
def ipc_pipeline_complete (r : Registry) (caller : Nat) (comp_id : Nat) :
    Int × Registry :=
  match ipc_get_comp_by_id r comp_id with
  | none => (-EINVAL, r)
  | some ipc_pipe =>
    match ipc_pipe.payload with
    | .pipe p =>
      if caller ≠ ipc_pipe.core then (ON_OTHER_CORE, r)
      else
        match ipc_get_comp_by_id r p.sched_id with
        | none => (-EINVAL, r)
        | some icd =>
          if !isCompEntry icd then (-EINVAL, r)
          else if icd.core ≠ ipc_pipe.core then (-EINVAL, r)
          else
            let r1 := setSchedComp r ipc_pipe.id icd.id
            match ipc_get_ppl_src_comp r1 p.pipeline_id with
            | none => (-EINVAL, r1)
            | some src =>
              match ipc_get_ppl_sink_comp r1 p.pipeline_id with
              | none => (-EINVAL, r1)
              | some sink =>
                let r2 := updateEntry r1 ipc_pipe.id (fun pl =>
                  match pl with
                  | .pipe q => .pipe { q with
                      source_comp := some src.id
                      sink_comp := some sink.id }
                  | _ => pl)
                (0, r2)
    | _ => (-EINVAL, r)

/-- The pipeline-creation descriptor `struct sof_ipc_pipe_new`. -/
structure PipeDesc where
  comp_id : Nat
  pipeline_id : Nat
  priority : Nat
  sched_id : Nat
  core : Nat
  period : Nat
  period_mips : Nat
  frames_per_sched : Nat
  time_domain : Nat
  xrun_limit_usecs : Nat
deriving Repr, DecidableEq

/-- Modelled from the spec: `pipeline_new` (outside the sample)
allocates a pipeline record initialised with the id, priority and
component id of the descriptor. -/
def pipeline_new (d : PipeDesc) : Pipeline :=
  { pipeline_id := d.pipeline_id
    priority := d.priority
    comp_id := d.comp_id
    sched_id := 0
    core := 0
    period := 0
    period_mips := 0
    frames_per_sched := 0
    time_domain := 0
    xrun_limit_usecs := 0
    sched_comp := none
    source_comp := none
    sink_comp := none }

/-- Modelled from the spec: `pipeline_schedule_config` (outside the
sample) stores the scheduling parameters on the pipeline record; its
success or failure is the caller's `sched_ret` parameter. -/
def pipeline_schedule_config (p : Pipeline) (d : PipeDesc) : Pipeline :=
  { p with
    sched_id := d.sched_id
    core := d.core
    period := d.period
    period_mips := d.period_mips
    frames_per_sched := d.frames_per_sched
    time_domain := d.time_domain }

/-- Embeds `ipc_pipeline_new`.  `live` tracks the pipeline objects
allocated by `pipeline_new` and not yet released by `pipeline_free`
(keyed by the descriptor's component id); `alloc_ok` is `pipeline_new`'s
allocation outcome, `sched_ret` and `xrun_ret` the results of the two
configuration steps, `cont_alloc_ok` the container `rzalloc` outcome.
Note that the two configuration-failure paths return without calling
`pipeline_free`, while the container-allocation failure path does free
the pipeline. -/
def ipc_pipeline_new (r : Registry) (live : List Nat) (d : PipeDesc)
    (alloc_ok : Bool) (sched_ret xrun_ret : Int) (cont_alloc_ok : Bool) :
    Int × Registry × List Nat :=
  if (ipc_get_comp_by_id r d.comp_id).isSome then (-EINVAL, r, live)
  else if (ipc_get_pipe_by_ppl_id r d.pipeline_id).isSome then
    (-EINVAL, r, live)
  else if !alloc_ok then (-ENOMEM, r, live)
  else
    let live1 := d.comp_id :: live
    let p1 := pipeline_schedule_config (pipeline_new d) d
    if sched_ret ≠ 0 then (sched_ret, r, live1)
    else
      let p2 := { p1 with xrun_limit_usecs := d.xrun_limit_usecs }
      if xrun_ret ≠ 0 then (xrun_ret, r, live1)
      else if !cont_alloc_ok then (-ENOMEM, r, live)
      else (0, r ++ [⟨d.comp_id, d.core, .pipe p2⟩], live1)

/-- The component-creation descriptor `struct sof_ipc_comp` (the fields
`ipc_comp_new` itself reads). -/
structure CompDesc where
  id : Nat
  pipeline_id : Nat
  core : Nat
  type : Nat
deriving Repr, DecidableEq

/-- Embeds `ipc_comp_new`.  `core_count` is `CONFIG_CORE_COUNT`;
`comp_new_result` is the outcome of `comp_new` (driver resolution via
the external driver table plus instantiation, returning the new
component or NULL); `alloc_ok` is the container `rzalloc` outcome.  The
returned `Bool` records whether `comp_new` — and hence any driver lookup
or instantiation — was reached. -/
def ipc_comp_new (core_count : Nat) (r : Registry) (c : CompDesc)
    (comp_new_result : Option CompDev) (alloc_ok : Bool) :
    Int × Registry × Bool :=
  if core_count ≤ c.core then (-EINVAL, r, false)
  else if (ipc_get_comp_by_id r c.id).isSome then (-EINVAL, r, false)
  else
    match comp_new_result with
    | none => (-EINVAL, r, true)
    | some cd =>
      if !alloc_ok then (-ENOMEM, r, true)
      else (0, r ++ [⟨c.id, c.core, .comp cd⟩], true)

/-! ## Concrete scenario data used by counterexamples and witnesses -/

/-- An idle component record on pipeline 9 with no edges. -/
def exCompDev : CompDev :=
  { state := COMP_STATE_READY
    pipe_id := 9
    is_shared := false
    bsource_list := []
    bsink_list := [] }

/-- A pipeline record with pipeline id 7, scheduling id 1, no bound
references. -/
def exPipeline : Pipeline :=
  { pipeline_id := 7
    priority := 0
    comp_id := 5
    sched_id := 1
    core := 0
    period := 1000
    period_mips := 0
    frames_per_sched := 48
    time_domain := 0
    xrun_limit_usecs := 0
    sched_comp := none
    source_comp := none
    sink_comp := none }

/-- Registry with component 1 (on pipeline 9) and pipeline entry 5
(pipeline id 7, sched id 1): the scheduling component resolves, but
pipeline 7 has no member components, so endpoint resolution fails. -/
def exRegComplete : Registry :=
  [⟨1, 0, .comp exCompDev⟩, ⟨5, 0, .pipe exPipeline⟩]

/-- A pipeline-creation descriptor for the C3 failing input. -/
def exPipeDesc : PipeDesc :=
  { comp_id := 5
    pipeline_id := 7
    priority := 0
    sched_id := 1
    core := 0
    period := 1000
    period_mips := 0
    frames_per_sched := 48
    time_domain := 0
    xrun_limit_usecs := 100 }

/-- An active (non-ready) component record used as a buffer source. -/
def exActiveComp : CompDev :=
  { state := 5
    pipe_id := 7
    is_shared := false
    bsource_list := []
    bsink_list := [10] }

/-- An idle component record used as a buffer sink. -/
def exIdleComp : CompDev :=
  { state := COMP_STATE_READY
    pipe_id := 8
    is_shared := false
    bsource_list := [10]
    bsink_list := [] }

/-- A buffer record with id 10 connecting component 2 (source) to
component 3 (sink). -/
def exBuffer : CompBuffer :=
  { id := 10
    pipeline_id := 7
    core := 0
    inter_core := false
    source := some 2
    sink := some 3
    underrun_permitted := false
    overrun_permitted := false }

/-- Registry for the C4 witness: active source 2, idle sink 3, buffer
10. -/
def exRegBufFree : Registry :=
  [⟨2, 0, .comp exActiveComp⟩, ⟨3, 0, .comp exIdleComp⟩,
   ⟨10, 0, .buf exBuffer⟩]

/-- Registry for the C4 both-active witness: both endpoints of buffer 10
are non-ready. -/
def exRegBufFreeBusy : Registry :=
  [⟨2, 0, .comp exActiveComp⟩, ⟨3, 0, .comp { exIdleComp with state := 5 }⟩,
   ⟨10, 0, .buf exBuffer⟩]

/-- A component entry on core 1 and a buffer entry on core 0, for the
cross-core connect witness. -/
def exRegConnect : Registry :=
  [⟨2, 1, .comp { exActiveComp with bsink_list := [] }⟩,
   ⟨10, 0, .buf { exBuffer with sink := none, source := none }⟩]

/-- Registry with two component entries and no buffer, for the invalid
pairing witness. -/
def exRegTwoComps : Registry :=
  [⟨1, 0, .comp exCompDev⟩, ⟨2, 0, .comp exActiveComp⟩]

/-! ## List helper lemmas

Small self-contained lemmas about `List.set`, `List.getD` and
`List.count`, used for the per-core boolean arrays. -/

theorem getD_set_self (l : List Bool) (i : Nat) (b : Bool)
    (h : i < l.length) : (l.set i b).getD i false = b := by
  induction l generalizing i with
  | nil => simp at h
  | cons x xs ih =>
    cases i with
    | zero => simp [List.set, List.getD]
    | succ n =>
      simp only [List.set, List.getD, List.getElem?_cons_succ]
      exact ih n (by simpa using h)

theorem count_true_set_true (l : List Bool) (i : Nat) (h : i < l.length)
    (hfalse : l.getD i false = false) :
    (l.set i true).count true = l.count true + 1 := by
  induction l generalizing i with
  | nil => simp at h
  | cons x xs ih =>
    cases i with
    | zero =>
      simp only [List.getD, List.getElem?_cons_zero, Option.getD_some] at hfalse
      subst hfalse
      simp [List.set, List.count_cons]
    | succ n =>
      simp only [List.getD, List.getElem?_cons_succ] at hfalse
      have := ih n (by simpa using h) hfalse
      simp only [List.set, List.count_cons, this]
      omega

theorem count_true_set_false (l : List Bool) (i : Nat) (h : i < l.length)
    (htrue : l.getD i false = true) :
    (l.set i false).count true + 1 = l.count true := by
  induction l generalizing i with
  | nil => simp at h
  | cons x xs ih =>
    cases i with
    | zero =>
      simp only [List.getD, List.getElem?_cons_zero, Option.getD_some] at htrue
      subst htrue
      simp [List.set, List.count_cons]
    | succ n =>
      simp only [List.getD, List.getElem?_cons_succ] at htrue
      have := ih n (by simpa using h) htrue
      simp only [List.set, List.count_cons] at this ⊢
      omega

/-! ## Registry helper lemmas -/

theorem get_some_id {r : Registry} {id : Nat} {e : IpcCompDev}
    (h : ipc_get_comp_by_id r id = some e) : e.id = id := by
  have := List.find?_some h
  simpa using this

theorem get_updateEntry (r : Registry) (id : Nat)
    (f : IcdPayload → IcdPayload) (id' : Nat) :
    ipc_get_comp_by_id (updateEntry r id f) id' =
      (ipc_get_comp_by_id r id').map
        (fun e => if e.id = id then { e with payload := f e.payload }
                  else e) := by
  induction r with
  | nil => rfl
  | cons e r ih =>
    have hid : (if e.id = id then { e with payload := f e.payload }
        else e).id = e.id := by
      split <;> rfl
    by_cases hc : e.id = id'
    · rw [ipc_get_comp_by_id, updateEntry, List.map_cons,
        List.find?_cons_of_pos _ (by rw [hid]; simp [hc]),
        ipc_get_comp_by_id, List.find?_cons_of_pos _ (by simp [hc])]
      rfl
    · rw [ipc_get_comp_by_id, updateEntry, List.map_cons,
        List.find?_cons_of_neg _ (by rw [hid]; simp [hc]),
        ipc_get_comp_by_id, List.find?_cons_of_neg _ (by simp [hc])]
      exact ih

theorem countP_updateEntry (r : Registry) (id : Nat)
    (f : IcdPayload → IcdPayload) (x : Nat) :
    (updateEntry r id f).countP (fun e => e.id == x)
      = r.countP (fun e => e.id == x) := by
  unfold updateEntry
  rw [List.countP_map]
  congr 1
  funext e
  simp only [Function.comp]
  split <;> rfl

theorem find?_eraseP_disjoint {α : Type} (p q : α → Bool) (l : List α)
    (h : ∀ e, q e = true → p e = false) :
    (l.eraseP q).find? p = l.find? p := by
  induction l with
  | nil => rfl
  | cons a l ih =>
    by_cases hq : q a
    · rw [List.eraseP_cons_of_pos hq, List.find?_cons_of_neg _ (by simp [h a hq])]
    · rw [List.eraseP_cons_of_neg hq]
      by_cases hp : p a
      · rw [List.find?_cons_of_pos _ hp, List.find?_cons_of_pos _ hp]
      · rw [List.find?_cons_of_neg _ hp, List.find?_cons_of_neg _ hp]
        exact ih

theorem find?_eraseP_self {α : Type} (p : α → Bool) (l : List α)
    (h : l.countP p = 1) : (l.eraseP p).find? p = none := by
  induction l with
  | nil => rfl
  | cons a l ih =>
    by_cases hp : p a
    · rw [List.eraseP_cons_of_pos hp]
      rw [List.countP_cons_of_pos _ _ hp] at h
      have hz : l.countP p = 0 := by omega
      rw [List.find?_eq_none]
      intro x hx
      have := List.countP_eq_zero.mp hz x hx
      simp [this]
    · rw [List.eraseP_cons_of_neg hp, List.find?_cons_of_neg _ hp]
      rw [List.countP_cons_of_neg _ _ hp] at h
      exact ih h

theorem get_updateEntry_other (r : Registry) (id : Nat)
    (f : IcdPayload → IcdPayload) (id' : Nat) (h : id' ≠ id) :
    ipc_get_comp_by_id (updateEntry r id f) id' =
      ipc_get_comp_by_id r id' := by
  rw [get_updateEntry]
  cases hg : ipc_get_comp_by_id r id' with
  | none => rfl
  | some e =>
    have := get_some_id hg
    simp [this, h]

theorem get_updateEntry_self (r : Registry) (id : Nat)
    (f : IcdPayload → IcdPayload) (e : IpcCompDev)
    (h : ipc_get_comp_by_id r id = some e) :
    ipc_get_comp_by_id (updateEntry r id f) id
      = some { e with payload := f e.payload } := by
  rw [get_updateEntry, h]
  simp [get_some_id h]

/-- `pipeline_connect` rewires edge slots but preserves the buffer's
`inter_core` flag and the component's `is_shared` flag. -/
theorem pipeline_connect_preserves_flags (r : Registry) (cid bid : Nat)
    (dir : ConnDir) (eb ec : IpcCompDev) (cb : CompBuffer) (cd : CompDev)
    (hb : ipc_get_comp_by_id r bid = some eb) (hbp : eb.payload = .buf cb)
    (hc : ipc_get_comp_by_id r cid = some ec) (hcp : ec.payload = .comp cd)
    (hne : cid ≠ bid) :
    bufInterCoreOf (pipeline_connect r cid bid dir) bid
      = some cb.inter_core ∧
    compSharedOf (pipeline_connect r cid bid dir) cid
      = some cd.is_shared := by
  have hbid : eb.id = bid := get_some_id hb
  have hcid : ec.id = cid := get_some_id hc
  refine ⟨?_, ?_⟩
  · unfold pipeline_connect bufInterCoreOf
    rw [get_updateEntry_other _ _ _ _ (Ne.symm hne),
      get_updateEntry_self r bid _ eb hb]
    cases dir <;> simp [hbp]
  · unfold pipeline_connect compSharedOf
    rw [get_updateEntry_self _ cid _ ec
        (by rw [get_updateEntry_other _ _ _ _ hne]; exact hc)]
    cases dir <;> simp [hcp]

/-- Flag values after the cross-core connect sequence: marking the
buffer inter-core, optionally promoting the component, then connecting
the edge. -/
theorem cross_core_chain_flags (r : Registry) (comp buffer : IpcCompDev)
    (cd : CompDev) (cb : CompBuffer) (dir : ConnDir)
    (hcp : comp.payload = .comp cd) (hbp : buffer.payload = .buf cb)
    (hcr : ipc_get_comp_by_id r comp.id = some comp)
    (hbr : ipc_get_comp_by_id r buffer.id = some buffer)
    (hids : comp.id ≠ buffer.id) :
    bufInterCoreOf (pipeline_connect (setBufferInterCore r buffer.id)
      comp.id buffer.id dir) buffer.id = some true ∧
    compSharedOf (pipeline_connect (setBufferInterCore r buffer.id)
      comp.id buffer.id dir) comp.id = some cd.is_shared ∧
    bufInterCoreOf (pipeline_connect
      (setCompShared (setBufferInterCore r buffer.id) comp.id)
      comp.id buffer.id dir) buffer.id = some true ∧
    compSharedOf (pipeline_connect
      (setCompShared (setBufferInterCore r buffer.id) comp.id)
      comp.id buffer.id dir) comp.id = some true := by
  have hb1 : ipc_get_comp_by_id (setBufferInterCore r buffer.id) buffer.id
      = some { buffer with payload := .buf { cb with inter_core := true } } := by
    unfold setBufferInterCore
    rw [get_updateEntry_self r buffer.id _ buffer hbr]
    simp [hbp]
  have hc1 : ipc_get_comp_by_id (setBufferInterCore r buffer.id) comp.id
      = some comp := by
    unfold setBufferInterCore
    rw [get_updateEntry_other _ _ _ _ hids]
    exact hcr
  have hb2 : ipc_get_comp_by_id
      (setCompShared (setBufferInterCore r buffer.id) comp.id) buffer.id
      = some { buffer with payload := .buf { cb with inter_core := true } } := by
    unfold setCompShared
    rw [get_updateEntry_other _ _ _ _ (Ne.symm hids)]
    exact hb1
  have hc2 : ipc_get_comp_by_id
      (setCompShared (setBufferInterCore r buffer.id) comp.id) comp.id
      = some { comp with payload := .comp { cd with is_shared := true } } := by
    unfold setCompShared
    rw [get_updateEntry_self _ comp.id _ comp hc1]
    simp [hcp]
  obtain ⟨hbi1, hcs1⟩ := pipeline_connect_preserves_flags
    (setBufferInterCore r buffer.id) comp.id buffer.id dir
    _ comp { cb with inter_core := true } cd hb1 rfl hc1 hcp hids
  obtain ⟨hbi2, hcs2⟩ := pipeline_connect_preserves_flags
    (setCompShared (setBufferInterCore r buffer.id) comp.id)
    comp.id buffer.id dir
    _ _ { cb with inter_core := true } { cd with is_shared := true }
    hb2 rfl hc2 rfl hids
  exact ⟨hbi1, hcs1, hbi2, hcs2⟩

/-- Binding `sched_comp` leaves every pipeline's `source_comp` and
`sink_comp` references unchanged. -/
theorem pipeSourceSinkOf_setSchedComp (r : Registry) (pid sid id' : Nat) :
    pipeSourceSinkOf (setSchedComp r pid sid) id'
      = pipeSourceSinkOf r id' := by
  unfold pipeSourceSinkOf setSchedComp
  rw [get_updateEntry]
  cases hg : ipc_get_comp_by_id r id' with
  | none => rfl
  | some e =>
    by_cases h : e.id = pid
    · cases hpl : e.payload <;> simp [h, hpl]
    · simp [h]

/-! ## ScheduleDomain theorems -/

/-- Claim C1 (code_bug): at the failing input — zero remaining tasks on
the core, `registered[core]` true before the call, backend unregister
failing — `domain_unregister` restores `total_num_tasks` but leaves
`registered[core]` cleared: the C restore condition tests the current
flag, which the speculative update has just set false, so the
"restore state" branch is unreachable and the flag stays false instead
of being rolled back to true as the claim requires. -/
theorem domain_unregister_failed_rollback_loses_flag :
    (domain_unregister exDomain 0 0 (-1)).total_num_tasks
        = exDomain.total_num_tasks ∧
    exDomain.registered.getD 0 false = true ∧
    (domain_unregister exDomain 0 0 (-1)).registered.getD 0 false = false := by
  decide

/-- Claim C7, counterexample: `domain_init` allocates with the
non-zeroing `rballoc` and never writes the `enabled[]` array, so on an
allocation whose memory happens to hold a `true` the freshly initialised
domain has `enabled_cores = 0` but one `true` entry — the claimed
invariant does not hold after initialization. -/
theorem domain_init_dirty_memory_breaks_invariant :
    ¬ enabledCoresInvariant (domain_init dirtyMem 0 0 false 38400) := by
  decide

/-- Claim C7, amended: the invariant `enabled_cores = number of true
entries of enabled[]` holds after `domain_init` provided the allocation
behind the domain has an all-false `enabled[]` array (e.g. zeroed
memory) — `domain_init` itself does not clear it — and is preserved by
every `domain_enable` and `domain_disable` call on a valid core
index. -/
theorem enabled_cores_invariant_amended :
    (∀ mem ty clk s t, mem.enabled.count true = 0 →
        enabledCoresInvariant (domain_init mem ty clk s t)) ∧
    (∀ d core h, core < d.enabled.length → enabledCoresInvariant d →
        enabledCoresInvariant (domain_enable d core h).1) ∧
    (∀ d core h, core < d.enabled.length → enabledCoresInvariant d →
        enabledCoresInvariant (domain_disable d core h).1) := by
  refine ⟨?_, ?_, ?_⟩
  · intro mem ty clk s t hcount
    simp [domain_init, enabledCoresInvariant, hcount]
  · intro d core h hlt hinv
    unfold domain_enable
    split
    · rename_i hcond
      have hfalse : d.enabled.getD core false = false := hcond.1
      unfold enabledCoresInvariant at hinv ⊢
      simp only
      rw [count_true_set_true d.enabled core hlt hfalse]
      omega
    · exact hinv
  · intro d core h hlt hinv
    unfold domain_disable
    split
    · rename_i hcond
      have htrue : d.enabled.getD core false = true := hcond.1
      unfold enabledCoresInvariant at hinv ⊢
      simp only
      have := count_true_set_false d.enabled core hlt htrue
      omega
    · exact hinv

/-- Witness for the amended C7 theorem: the invariant holds after a
clean init and after an enable on the result. -/
theorem enabled_cores_invariant_amended_witness :
    enabledCoresInvariant
      (domain_enable (domain_init { dirtyMem with enabled := [false] } 0 0
        false 38400) 0 true).1 :=
  enabled_cores_invariant_amended.2.1
    (domain_init { dirtyMem with enabled := [false] } 0 0 false 38400) 0 true
    (by decide)
    (enabled_cores_invariant_amended.1 { dirtyMem with enabled := [false] }
      0 0 false 38400 (by decide))

/-- Claim C8, counterexample: on a domain state whose core 0 is already
enabled, calling `domain_enable` twice performs the backend call zero
times, not exactly once — the claim's universal quantification over all
domain states fails. -/
theorem domain_enable_twice_not_one_backend_call :
    ¬ ((domain_enable exDomain 0 true).2 +
        (domain_enable (domain_enable exDomain 0 true).1 0 true).2 = 1) := by
  decide

/-- Claim C8, amended: when `enabled[core]` is false beforehand, the
core index is valid and the backend provides an enable hook, two
consecutive `domain_enable` calls invoke the hook exactly once (on the
first call), and the second call invokes it zero times and leaves the
whole domain state — in particular `enabled_cores` and `enabled[core]`
— unchanged. -/
theorem domain_enable_idempotent_amended (d : LLDomain) (core : Nat)
    (h1 : core < d.enabled.length)
    (h2 : d.enabled.getD core false = false) :
    (domain_enable d core true).2 = 1 ∧
    (domain_enable (domain_enable d core true).1 core true).2 = 0 ∧
    (domain_enable (domain_enable d core true).1 core true).1
      = (domain_enable d core true).1 := by
  have h2n : d.enabled[core]?.getD false = false := by
    simpa [List.getD] using h2
  have hfirst : domain_enable d core true =
      ({ d with
          enabled := d.enabled.set core true
          enabled_cores := d.enabled_cores + 1 }, 1) := by
    unfold domain_enable
    simp [h2n]
  have hset : (d.enabled.set core true)[core]?.getD false = true := by
    simpa [List.getD] using getD_set_self d.enabled core true h1
  refine ⟨by rw [hfirst], ?_, ?_⟩
  · rw [hfirst]
    unfold domain_enable
    simp [hset]
  · rw [hfirst]
    unfold domain_enable
    simp [hset]

/-- Witness for the amended C8 theorem at a concrete one-core domain
with core 0 disabled. -/
theorem domain_enable_idempotent_amended_witness :
    (domain_enable exDomainOff 0 true).2 = 1 ∧
    (domain_enable (domain_enable exDomainOff 0 true).1 0 true).2 = 0 ∧
    (domain_enable (domain_enable exDomainOff 0 true).1 0 true).1
      = (domain_enable exDomainOff 0 true).1 :=
  domain_enable_idempotent_amended exDomainOff 0 (by decide) (by decide)

/-- Claim C9 (confirmed): for every domain state, every tick value, and
every backend (any optional `domain_set` / `domain_clear` hooks,
including hooks that arbitrarily rewrite the domain state),
`domain_set` followed by `domain_clear` leaves `next_tick` at the
`UINT64_MAX` "unset" sentinel: `domain_clear` resets it unconditionally
after any hook has run. -/
theorem domain_set_then_clear_restores_sentinel
    (setHook : Option (LLDomain → Nat → LLDomain))
    (clearHook : Option (LLDomain → LLDomain))
    (d : LLDomain) (v : Nat) :
    (domain_clear clearHook (domain_set setHook d v)).next_tick
      = UINT64_MAX := by
  cases clearHook <;> rfl

/-! ## Topology theorems -/

/-- Claim C10 (confirmed): a component-creation descriptor whose
declared owning core is at or beyond `CONFIG_CORE_COUNT` makes
`ipc_comp_new` fail with `-EINVAL` before `comp_new` — and hence before
any driver lookup or instantiation — is reached, and the registry is
unchanged. -/
theorem ipc_comp_new_rejects_out_of_range_core (core_count : Nat)
    (r : Registry) (c : CompDesc) (res : Option CompDev)
    (alloc_ok : Bool) (h : core_count ≤ c.core) :
    ipc_comp_new core_count r c res alloc_ok = (-EINVAL, r, false) := by
  unfold ipc_comp_new
  rw [if_pos h]

/-- Witness for C10: one configured core, a descriptor on core 1. -/
theorem ipc_comp_new_rejects_out_of_range_core_witness :
    ipc_comp_new 1 [] ⟨4, 7, 1, 0⟩ none true = (-EINVAL, [], false) :=
  ipc_comp_new_rejects_out_of_range_core 1 [] ⟨4, 7, 1, 0⟩ none true
    (by decide)

/-- Claim C6 (confirmed): when both ids resolve to registry entries but
the (source type, sink type) pairing is neither (buffer, component) nor
(component, buffer), `ipc_comp_connect` fails with `-EINVAL` and the
registry is returned unchanged. -/
theorem ipc_comp_connect_rejects_invalid_pairing
    (r : Registry) (caller : Nat) (shared_ok : Bool)
    (source_id sink_id : Nat) (es ek : IpcCompDev)
    (hs : ipc_get_comp_by_id r source_id = some es)
    (hk : ipc_get_comp_by_id r sink_id = some ek)
    (hnot1 : ¬(isBufEntry es = true ∧ isCompEntry ek = true))
    (hnot2 : ¬(isCompEntry es = true ∧ isBufEntry ek = true)) :
    ipc_comp_connect r caller shared_ok source_id sink_id = (-EINVAL, r) := by
  unfold ipc_comp_connect
  rw [hs, hk]
  have h1 : (isBufEntry es && isCompEntry ek) = false := by
    cases hb : isBufEntry es <;> cases hc : isCompEntry ek <;> simp_all
  have h2 : (isCompEntry es && isBufEntry ek) = false := by
    cases hb : isCompEntry es <;> cases hc : isBufEntry ek <;> simp_all
  simp [h1, h2]

/-- Witness for C6: connecting two component entries is rejected. -/
theorem ipc_comp_connect_rejects_invalid_pairing_witness :
    ipc_comp_connect exRegTwoComps 0 true 1 2 = (-EINVAL, exRegTwoComps) :=
  ipc_comp_connect_rejects_invalid_pairing exRegTwoComps 0 true 1 2
    ⟨1, 0, .comp exCompDev⟩ ⟨2, 0, .comp exActiveComp⟩
    (by decide) (by decide) (by decide) (by decide)

/-- Claim C5 (confirmed): for both connect directions, executed on the
component's owning core: a cross-core connect that succeeds (promotion
allocation succeeding) returns success, leaves the buffer with
`inter_core = true` and the component in shared form; a same-core
connect succeeds without touching `inter_core` or promoting — both flags
keep their prior values. -/
theorem ipc_connect_cross_core_coherency :
    (∀ r comp buffer cd cb, comp.payload = .comp cd →
      buffer.payload = .buf cb →
      ipc_get_comp_by_id r comp.id = some comp →
      ipc_get_comp_by_id r buffer.id = some buffer →
      comp.id ≠ buffer.id → buffer.core ≠ comp.core →
      (ipc_comp_to_buffer_connect r comp.core true comp buffer).1 = 0 ∧
      bufInterCoreOf
        (ipc_comp_to_buffer_connect r comp.core true comp buffer).2
        buffer.id = some true ∧
      compSharedOf
        (ipc_comp_to_buffer_connect r comp.core true comp buffer).2
        comp.id = some true) ∧
    (∀ r shared_ok comp buffer cd cb, comp.payload = .comp cd →
      buffer.payload = .buf cb →
      ipc_get_comp_by_id r comp.id = some comp →
      ipc_get_comp_by_id r buffer.id = some buffer →
      comp.id ≠ buffer.id → buffer.core = comp.core →
      (ipc_comp_to_buffer_connect r comp.core shared_ok comp buffer).1 = 0 ∧
      bufInterCoreOf
        (ipc_comp_to_buffer_connect r comp.core shared_ok comp buffer).2
        buffer.id = some cb.inter_core ∧
      compSharedOf
        (ipc_comp_to_buffer_connect r comp.core shared_ok comp buffer).2
        comp.id = some cd.is_shared) ∧
    (∀ r comp buffer cd cb, comp.payload = .comp cd →
      buffer.payload = .buf cb →
      ipc_get_comp_by_id r comp.id = some comp →
      ipc_get_comp_by_id r buffer.id = some buffer →
      comp.id ≠ buffer.id → buffer.core ≠ comp.core →
      (ipc_buffer_to_comp_connect r comp.core true buffer comp).1 = 0 ∧
      bufInterCoreOf
        (ipc_buffer_to_comp_connect r comp.core true buffer comp).2
        buffer.id = some true ∧
      compSharedOf
        (ipc_buffer_to_comp_connect r comp.core true buffer comp).2
        comp.id = some true) ∧
    (∀ r shared_ok comp buffer cd cb, comp.payload = .comp cd →
      buffer.payload = .buf cb →
      ipc_get_comp_by_id r comp.id = some comp →
      ipc_get_comp_by_id r buffer.id = some buffer →
      comp.id ≠ buffer.id → buffer.core = comp.core →
      (ipc_buffer_to_comp_connect r comp.core shared_ok buffer comp).1 = 0 ∧
      bufInterCoreOf
        (ipc_buffer_to_comp_connect r comp.core shared_ok buffer comp).2
        buffer.id = some cb.inter_core ∧
      compSharedOf
        (ipc_buffer_to_comp_connect r comp.core shared_ok buffer comp).2
        comp.id = some cd.is_shared) := by
  have hshared : ∀ (comp : IpcCompDev) (cd : CompDev),
      comp.payload = .comp cd → compEntryShared comp = cd.is_shared := by
    intro comp cd hcp
    unfold compEntryShared
    rw [hcp]
  refine ⟨?_, ?_, ?_, ?_⟩
  · intro r comp buffer cd cb hcp hbp hcr hbr hids hcore
    obtain ⟨hbi1, hcs1, hbi2, hcs2⟩ := cross_core_chain_flags r comp buffer
      cd cb .comp_to_buffer hcp hbp hcr hbr hids
    by_cases hsh : compEntryShared comp = true
    · have hres : ipc_comp_to_buffer_connect r comp.core true comp buffer
          = (0, pipeline_connect (setBufferInterCore r buffer.id)
              comp.id buffer.id .comp_to_buffer) := by
        unfold ipc_comp_to_buffer_connect
        simp [hcore, hsh]
      have hcdsh : cd.is_shared = true := by
        rw [hshared comp cd hcp] at hsh
        exact hsh
      rw [hres]
      exact ⟨rfl, hbi1, by rw [hcs1, hcdsh]⟩
    · have hres : ipc_comp_to_buffer_connect r comp.core true comp buffer
          = (0, pipeline_connect
              (setCompShared (setBufferInterCore r buffer.id) comp.id)
              comp.id buffer.id .comp_to_buffer) := by
        unfold ipc_comp_to_buffer_connect
        simp [hcore, hsh]
      rw [hres]
      exact ⟨rfl, hbi2, hcs2⟩
  · intro r shared_ok comp buffer cd cb hcp hbp hcr hbr hids hcore
    have hres : ipc_comp_to_buffer_connect r comp.core shared_ok comp buffer
        = (0, pipeline_connect r comp.id buffer.id .comp_to_buffer) := by
      unfold ipc_comp_to_buffer_connect
      simp [hcore]
    obtain ⟨hbi, hcs⟩ := pipeline_connect_preserves_flags r comp.id buffer.id
      .comp_to_buffer buffer comp cb cd hbr hbp hcr hcp hids
    rw [hres]
    exact ⟨rfl, hbi, hcs⟩
  · intro r comp buffer cd cb hcp hbp hcr hbr hids hcore
    obtain ⟨hbi1, hcs1, hbi2, hcs2⟩ := cross_core_chain_flags r comp buffer
      cd cb .buffer_to_comp hcp hbp hcr hbr hids
    by_cases hsh : compEntryShared comp = true
    · have hres : ipc_buffer_to_comp_connect r comp.core true buffer comp
          = (0, pipeline_connect (setBufferInterCore r buffer.id)
              comp.id buffer.id .buffer_to_comp) := by
        unfold ipc_buffer_to_comp_connect
        simp [hcore, hsh]
      have hcdsh : cd.is_shared = true := by
        rw [hshared comp cd hcp] at hsh
        exact hsh
      rw [hres]
      exact ⟨rfl, hbi1, by rw [hcs1, hcdsh]⟩
    · have hres : ipc_buffer_to_comp_connect r comp.core true buffer comp
          = (0, pipeline_connect
              (setCompShared (setBufferInterCore r buffer.id) comp.id)
              comp.id buffer.id .buffer_to_comp) := by
        unfold ipc_buffer_to_comp_connect
        simp [hcore, hsh]
      rw [hres]
      exact ⟨rfl, hbi2, hcs2⟩
  · intro r shared_ok comp buffer cd cb hcp hbp hcr hbr hids hcore
    have hres : ipc_buffer_to_comp_connect r comp.core shared_ok buffer comp
        = (0, pipeline_connect r comp.id buffer.id .buffer_to_comp) := by
      unfold ipc_buffer_to_comp_connect
      simp [hcore]
    obtain ⟨hbi, hcs⟩ := pipeline_connect_preserves_flags r comp.id buffer.id
      .buffer_to_comp buffer comp cb cd hbr hbp hcr hcp hids
    rw [hres]
    exact ⟨rfl, hbi, hcs⟩

/-- Witness for C5: a cross-core component→buffer connect on the
two-entry registry marks buffer 10 inter-core and promotes component
2. -/
theorem ipc_connect_cross_core_coherency_witness :
    (ipc_comp_to_buffer_connect exRegConnect 1 true
      ⟨2, 1, .comp { exActiveComp with bsink_list := [] }⟩
      ⟨10, 0, .buf { exBuffer with sink := none, source := none }⟩).1 = 0 ∧
    bufInterCoreOf (ipc_comp_to_buffer_connect exRegConnect 1 true
      ⟨2, 1, .comp { exActiveComp with bsink_list := [] }⟩
      ⟨10, 0, .buf { exBuffer with sink := none, source := none }⟩).2
      10 = some true ∧
    compSharedOf (ipc_comp_to_buffer_connect exRegConnect 1 true
      ⟨2, 1, .comp { exActiveComp with bsink_list := [] }⟩
      ⟨10, 0, .buf { exBuffer with sink := none, source := none }⟩).2
      2 = some true :=
  ipc_connect_cross_core_coherency.1 exRegConnect
    ⟨2, 1, .comp { exActiveComp with bsink_list := [] }⟩
    ⟨10, 0, .buf { exBuffer with sink := none, source := none }⟩
    { exActiveComp with bsink_list := [] }
    { exBuffer with sink := none, source := none }
    rfl rfl (by decide) (by decide) (by decide) (by decide)

/-- Claim C4 (confirmed), both halves, executed on the buffer's owning
core.  First half: a registered buffer whose source component is active
(state not `COMP_STATE_READY`) while every component registered under
the sink id is idle is freed successfully, its source edge is
disconnected (the source component's `bsink_list` loses the buffer), and
the buffer leaves the registry.  Second half: when both source and sink
components are active the call fails with `-EINVAL` and returns the
registry — hence both edges — unchanged. -/
theorem ipc_buffer_free_endpoint_policy :
    (∀ (r : Registry) (bid bcore : Nat) (cb : CompBuffer)
      (sid kid score : Nat) (scd : CompDev),
      ipc_get_comp_by_id r bid = some ⟨bid, bcore, .buf cb⟩ →
      cb.source = some sid → cb.sink = some kid →
      ipc_get_comp_by_id r sid = some ⟨sid, score, .comp scd⟩ →
      scd.state ≠ COMP_STATE_READY →
      (∀ e ∈ r, ∀ cd, e.payload = .comp cd → e.id = kid →
        cd.state = COMP_STATE_READY) →
      sid ≠ bid →
      r.countP (fun e => e.id == bid) = 1 →
      (ipc_buffer_free r bcore bid).1 = 0 ∧
      ipc_get_comp_by_id (ipc_buffer_free r bcore bid).2 bid = none ∧
      compBsinkListOf (ipc_buffer_free r bcore bid).2 sid
        = some (scd.bsink_list.erase bid)) ∧
    (∀ (r : Registry) (bid bcore : Nat) (cb : CompBuffer)
      (sid kid score kcore : Nat) (scd kcd : CompDev),
      ipc_get_comp_by_id r bid = some ⟨bid, bcore, .buf cb⟩ →
      cb.source = some sid → cb.sink = some kid →
      ipc_get_comp_by_id r sid = some ⟨sid, score, .comp scd⟩ →
      scd.state ≠ COMP_STATE_READY →
      ipc_get_comp_by_id r kid = some ⟨kid, kcore, .comp kcd⟩ →
      kcd.state ≠ COMP_STATE_READY →
      ipc_buffer_free r bcore bid = (-EINVAL, r)) := by
  constructor
  · intro r bid bcore cb sid kid score scd hb hsrc hsink hse hact hidle
      hsb hcount
    have hsinkA : (r.any fun icd =>
        match icd.payload with
        | .comp cd => cb.sink == some icd.id && cd.state != COMP_STATE_READY
        | _ => false) = false := by
      rw [List.any_eq_false]
      intro e he
      cases hep : e.payload with
      | comp cd =>
        simp only [hep, Bool.and_eq_true, bne_iff_ne, beq_iff_eq, hsink,
          Option.some.injEq, not_and]
        intro hkid
        have := hidle e he cd hep hkid.symm
        simp [this]
      | buf cb2 => simp [hep]
      | pipe p => simp [hep]
    have hsrcA : (r.any fun icd =>
        match icd.payload with
        | .comp cd => cb.source == some icd.id && cd.state != COMP_STATE_READY
        | _ => false) = true := by
      rw [List.any_eq_true]
      refine ⟨_, List.mem_of_find?_eq_some hse, ?_⟩
      simp [hsrc, hact]
    have hres : ipc_buffer_free r bcore bid
        = (0, removeEntryById
            (pipeline_disconnect r sid bid .comp_to_buffer) bid) := by
      unfold ipc_buffer_free
      rw [hb]
      simp only [hsinkA, hsrcA]
      simp [hsrc]
    refine ⟨by rw [hres], ?_, ?_⟩
    · rw [hres]
      have hc2 : (pipeline_disconnect r sid bid .comp_to_buffer).countP
          (fun e => e.id == bid) = 1 := by
        unfold pipeline_disconnect
        rw [countP_updateEntry, countP_updateEntry]
        exact hcount
      unfold ipc_get_comp_by_id removeEntryById
      exact find?_eraseP_self _ _ hc2
    · rw [hres]
      have hfind : ipc_get_comp_by_id
          (removeEntryById (pipeline_disconnect r sid bid .comp_to_buffer)
            bid) sid
          = ipc_get_comp_by_id
            (pipeline_disconnect r sid bid .comp_to_buffer) sid := by
        unfold ipc_get_comp_by_id removeEntryById
        refine find?_eraseP_disjoint _ _ _ ?_
        intro e heq
        have : e.id = bid := by simpa using heq
        simp [this, hsb.symm]
      have hdis : ipc_get_comp_by_id
          (pipeline_disconnect r sid bid .comp_to_buffer) sid
          = some ⟨sid, score,
              .comp { scd with bsink_list := scd.bsink_list.erase bid }⟩ := by
        unfold pipeline_disconnect
        rw [get_updateEntry_self _ sid _ ⟨sid, score, .comp scd⟩
          (by rw [get_updateEntry_other _ _ _ _ hsb]; exact hse)]
      unfold compBsinkListOf
      rw [hfind, hdis]
  · intro r bid bcore cb sid kid score kcore scd kcd hb hsrc hsink hse
      hact hke hkact
    have hsinkA : (r.any fun icd =>
        match icd.payload with
        | .comp cd => cb.sink == some icd.id && cd.state != COMP_STATE_READY
        | _ => false) = true := by
      rw [List.any_eq_true]
      refine ⟨_, List.mem_of_find?_eq_some hke, ?_⟩
      simp [hsink, hkact]
    have hsrcA : (r.any fun icd =>
        match icd.payload with
        | .comp cd => cb.source == some icd.id && cd.state != COMP_STATE_READY
        | _ => false) = true := by
      rw [List.any_eq_true]
      refine ⟨_, List.mem_of_find?_eq_some hse, ?_⟩
      simp [hsrc, hact]
    unfold ipc_buffer_free
    rw [hb]
    simp only [hsinkA, hsrcA]
    simp

/-- Witness for C4: on the three-entry registry, freeing buffer 10 with
active source 2 and idle sink 3 succeeds, removes the buffer and erases
it from component 2's sink list; on the both-active variant the call is
rejected with the registry unchanged. -/
theorem ipc_buffer_free_endpoint_policy_witness :
    ((ipc_buffer_free exRegBufFree 0 10).1 = 0 ∧
      ipc_get_comp_by_id (ipc_buffer_free exRegBufFree 0 10).2 10 = none ∧
      compBsinkListOf (ipc_buffer_free exRegBufFree 0 10).2 2
        = some (exActiveComp.bsink_list.erase 10)) ∧
    ipc_buffer_free exRegBufFreeBusy 0 10 = (-EINVAL, exRegBufFreeBusy) :=
  ⟨ipc_buffer_free_endpoint_policy.1 exRegBufFree 10 0 exBuffer 2 3 0
      exActiveComp (by decide) (by decide) (by decide) (by decide)
      (by decide)
      (by
        intro e he cd hep hid
        simp only [exRegBufFree, List.mem_cons, List.not_mem_nil,
          or_false] at he
        rcases he with rfl | rfl | rfl
        · exact absurd hid (by decide)
        · injection hep with h
          subst h
          decide
        · simp at hep)
      (by decide) (by decide),
    ipc_buffer_free_endpoint_policy.2 exRegBufFreeBusy 10 0 exBuffer 2 3 0 0
      exActiveComp { exIdleComp with state := 5 } (by decide) (by decide)
      (by decide) (by decide) (by decide) (by decide) (by decide)⟩

/-- Claim C2, counterexample: on the registry holding component 1 (a
member of a different pipeline) and pipeline entry 5 (sched id 1),
`ipc_pipeline_complete` passes all scheduling-component checks, binds
`sched_comp := 1`, and only then fails to resolve the source endpoint —
the call fails with `-EINVAL` yet `sched_comp` has changed from absent
to bound, so the three references are not left as they were. -/
theorem ipc_pipeline_complete_failure_binds_sched :
    (ipc_pipeline_complete exRegComplete 0 5).1 = -EINVAL ∧
    pipeRefsOf exRegComplete 5 = some (none, none, none) ∧
    pipeRefsOf (ipc_pipeline_complete exRegComplete 0 5).2 5
      = some (some 1, none, none) := by
  decide

/-- Claim C2, amended: on any failing `ipc_pipeline_complete` call the
`source_comp` and `sink_comp` references of every pipeline are exactly
as before, and the registry is either fully unchanged (failures of the
pipeline lookup, the core check, or any scheduling-component check) or
differs only in the target pipeline's `sched_comp`, which endpoint
resolution failures leave already bound to the scheduling component. -/
theorem ipc_pipeline_complete_binds_amended (r : Registry)
    (caller cid : Nat)
    (hfail : (ipc_pipeline_complete r caller cid).1 ≠ 0) :
    (∀ id', pipeSourceSinkOf (ipc_pipeline_complete r caller cid).2 id'
      = pipeSourceSinkOf r id') ∧
    ((ipc_pipeline_complete r caller cid).2 = r ∨
      ∃ sid, (ipc_pipeline_complete r caller cid).2
        = setSchedComp r cid sid) := by
  revert hfail
  unfold ipc_pipeline_complete
  cases hg : ipc_get_comp_by_id r cid with
  | none =>
    intro _
    exact ⟨fun id' => rfl, Or.inl rfl⟩
  | some e =>
    have he : e.id = cid := get_some_id hg
    dsimp only
    cases hpl : e.payload with
    | comp cd =>
      intro _
      exact ⟨fun id' => rfl, Or.inl rfl⟩
    | buf cb =>
      intro _
      exact ⟨fun id' => rfl, Or.inl rfl⟩
    | pipe p =>
      dsimp only
      by_cases hcore : caller ≠ e.core
      · rw [if_pos hcore]
        intro _
        exact ⟨fun id' => rfl, Or.inl rfl⟩
      · rw [if_neg hcore]
        cases hs : ipc_get_comp_by_id r p.sched_id with
        | none =>
          intro _
          exact ⟨fun id' => rfl, Or.inl rfl⟩
        | some icd =>
          dsimp only
          by_cases ht : isCompEntry icd
          · rw [ht, Bool.not_true, if_neg (by simp)]
            by_cases hc2 : icd.core ≠ e.core
            · rw [if_pos hc2]
              intro _
              exact ⟨fun id' => rfl, Or.inl rfl⟩
            · rw [if_neg hc2]
              cases hsrc : ipc_get_ppl_src_comp (setSchedComp r e.id icd.id)
                  p.pipeline_id with
              | none =>
                intro _
                refine ⟨fun id' => pipeSourceSinkOf_setSchedComp r e.id
                  icd.id id', Or.inr ⟨icd.id, ?_⟩⟩
                rw [he]
              | some src =>
                cases hsink : ipc_get_ppl_sink_comp
                    (setSchedComp r e.id icd.id) p.pipeline_id with
                | none =>
                  intro _
                  refine ⟨fun id' => pipeSourceSinkOf_setSchedComp r e.id
                    icd.id id', Or.inr ⟨icd.id, ?_⟩⟩
                  rw [he]
                | some sink =>
                  intro hfail
                  exact absurd rfl hfail
          · rw [Bool.not_eq_true] at ht
            rw [ht, Bool.not_false, if_pos rfl]
            intro _
            exact ⟨fun id' => rfl, Or.inl rfl⟩

/-- Witness for the amended C2 theorem: applying it to the endpoint
resolution failure on `exRegComplete` shows pipeline 5's source/sink
references unchanged. -/
theorem ipc_pipeline_complete_binds_amended_witness :
    pipeSourceSinkOf (ipc_pipeline_complete exRegComplete 0 5).2 5
      = pipeSourceSinkOf exRegComplete 5 :=
  (ipc_pipeline_complete_binds_amended exRegComplete 0 5 (by decide)).1 5

/-- Claim C3 (code_bug): at the failing input — empty registry, fresh
ids, `pipeline_new` allocation succeeding, `pipeline_schedule_config`
failing — `ipc_pipeline_new` returns the error and adds no registry
entry, but the freshly allocated pipeline object is still live: the
configuration-failure paths return without calling `pipeline_free`,
unlike the container-allocation failure path a few lines below, so the
partially built pipeline's resources are not released. -/
theorem ipc_pipeline_new_config_failure_leaks :
    (ipc_pipeline_new [] [] exPipeDesc true (-EINVAL) 0 true).1
      = -EINVAL ∧
    (ipc_pipeline_new [] [] exPipeDesc true (-EINVAL) 0 true).2.1 = [] ∧
    (ipc_pipeline_new [] [] exPipeDesc true (-EINVAL) 0 true).2.2
      = [5] := by
  decide

end Sof
